import Mathlib

/-!
Verification of the karyana-backend e-commerce service against its
natural-language specification.

The development shallowly embeds the relevant route handlers:

* `POST /orders/checkout` (src/src/routes/order.ts, variant 1 of the file,
  lines 142-332): guards, the Prisma `$transaction` (order + payment +
  stock decrement + cart clearing), and the detached best-effort
  side-effect block.
* `POST /orders/checkout` (variant 3 of the same file, lines 1448-1625),
  where the post-transaction side effects are awaited without try/catch.
* `PUT /orders/:id/status` and `POST /orders/tracking` (variant 1,
  lines 441-559): order status update plus the DELIVERED -> payment
  SUCCESS sync and tracking append.
* `DELETE /orders/:id` (variant 1, lines 337-358).
* `POST /cart` (src/src/routes/cart.ts, lines 35-70).
* `POST /bulk/products/import` row processing (src/unnamed/part_004,
  lines 62-192).
* `createNotification` (src/src/utils/notification-helper.ts).

Database tables are lists of rows; the relational schema follows
src/prisma/migrations/20251225121552_.../migration.sql.  JS numbers are
modelled as `Int` (all arithmetic involved is exact), ids as `Nat`.
Serial primary keys that no handler ever reads back (OrderItem.id,
Notification.id, TrackingHistory.id) are omitted from the row types; a
single `nextId` counter allocates fresh ids for the remaining tables.
-/

/-- A row of the `Product` table (the columns the verified routes read or
write; the boolean flags `isFeatured`/`isTrending`/`isOnSale`, `oldPrice`
and `tags` are copied verbatim by the import route and read nowhere else,
so they are not carried). -/
structure Product where
  id : Nat
  sellerId : Option Nat
  categoryId : Nat
  title : String
  description : String
  price : Int
  stock : Int
  image : String
  deriving DecidableEq, Repr

/-- A row of the `Category` table. -/
structure Category where
  id : Nat
  name : String
  image : String
  sellerId : Option Nat
  deriving DecidableEq, Repr

/-- A row of the `Cart` table (`userId` carries a UNIQUE constraint). -/
structure Cart where
  id : Nat
  userId : Nat
  deriving DecidableEq, Repr

/-- A row of the `CartItem` table. -/
structure CartItem where
  id : Nat
  cartId : Nat
  productId : Nat
  qty : Int
  deriving DecidableEq, Repr

/-- A row of the `Order` table. -/
structure Order where
  id : Nat
  userId : Nat
  total : Int
  status : String
  shippingAddress : Option String
  shippingCity : Option String
  shippingPhone : Option String
  deriving DecidableEq, Repr

/-- A row of the `OrderItem` table: the snapshot of productId, quantity
and unit price taken at order time. -/
structure OrderItem where
  orderId : Nat
  productId : Nat
  qty : Int
  price : Int
  deriving DecidableEq, Repr

/-- A row of the `Payment` table (`orderId` carries a UNIQUE constraint
and an ON DELETE RESTRICT foreign key to `Order`). -/
structure Payment where
  id : Nat
  orderId : Nat
  method : String
  amount : Int
  status : String
  deriving DecidableEq, Repr

/-- A row of the `Notification` table: `userId`, `sellerId` and `role`
are all nullable columns with no default besides NULL. -/
structure NotificationRow where
  userId : Option Nat
  sellerId : Option Nat
  role : Option String
  message : String
  link : Option String
  unread : Bool
  deriving DecidableEq, Repr

/-- A row of the `TrackingHistory` table (`orderId` has an ON DELETE
RESTRICT foreign key to `Order`). -/
structure TrackingRow where
  orderId : Nat
  status : String
  message : String
  deriving DecidableEq, Repr

/-- The relational store. -/
structure DB where
  products : List Product
  categories : List Category
  carts : List Cart
  cartItems : List CartItem
  orders : List Order
  orderItems : List OrderItem
  payments : List Payment
  notifications : List NotificationRow
  tracking : List TrackingRow
  nextId : Nat
  deriving DecidableEq, Repr

/-- Basic well-formedness of a database state: serial ids are below the
allocator and every cart line references an existing product (the
`CartItem.productId` foreign key). -/
def DB.WF (db : DB) : Prop :=
  (∀ p ∈ db.products, p.id < db.nextId) ∧
  (∀ c ∈ db.carts, c.id < db.nextId) ∧
  (∀ ci ∈ db.cartItems, ci.id < db.nextId ∧ ci.cartId < db.nextId) ∧
  (∀ o ∈ db.orders, o.id < db.nextId) ∧
  (∀ oi ∈ db.orderItems, oi.orderId < db.nextId) ∧
  (∀ p ∈ db.payments, p.id < db.nextId) ∧
  (∀ ci ∈ db.cartItems, (db.products.find? (fun p => p.id == ci.productId)).isSome)

instance (db : DB) : Decidable db.WF := by
  unfold DB.WF; infer_instance

/-- Embeds `prisma.product.findUnique({ where: { id } })`. -/
def findProduct (db : DB) (pid : Nat) : Option Product :=
  db.products.find? (fun p => p.id == pid)

/-- The stock column of a product, when the product exists. -/
def stockOf (db : DB) (pid : Nat) : Option Int :=
  (findProduct db pid).map (fun p => p.stock)

/-- Embeds `prisma.cart.findUnique({ where: { userId } })`. -/
def findCart (db : DB) (userId : Nat) : Option Cart :=
  db.carts.find? (fun c => c.userId == userId)

/-- The `items` relation included with a cart. -/
def cartLines (db : DB) (cartId : Nat) : List CartItem :=
  db.cartItems.filter (fun ci => ci.cartId == cartId)

/-- The argument record of `createNotification`
(src/src/utils/notification-helper.ts).  Call sites in order.ts and
auth.ts additionally pass a `role` field (e.g. `role: "ADMIN"`), so the
input carries it; the helper itself only forwards userId, sellerId,
message and link. -/
structure NotificationInput where
  userId : Option Nat := none
  sellerId : Option Nat := none
  role : Option String := none
  message : String
  link : Option String := none

/-- The row stored by `createNotification`
(src/src/utils/notification-helper.ts): the `prisma.notification.create`
data block is `{ userId: data.userId ?? null, sellerId: data.sellerId ??
null, message: data.message, link: data.link ?? null }` — no `role` key,
so the stored row keeps the column default NULL whatever the caller
passed. -/
def notifRowOf (data : NotificationInput) : NotificationRow :=
  { userId := data.userId, sellerId := data.sellerId, role := none,
    message := data.message, link := data.link, unread := true }

/-- Embeds `createNotification` from src/src/utils/notification-helper.ts. -/
def createNotification (db : DB) (data : NotificationInput) : DB :=
  { db with notifications := db.notifications ++ [notifRowOf data] }

/-- The checkout request body plus the authenticated user
(`req.user.id`, `req.user.name`). -/
structure CheckoutReq where
  userId : Nat
  userName : String
  method : String
  address : String
  city : String
  phone : String

/-- Success flags for the post-transaction side-effect channels
(in-app notification rows, transactional e-mail, WhatsApp webhook).
`false` means the corresponding call throws. -/
structure Effects where
  notifOk : Bool
  mailOk : Bool
  waOk : Bool

/-- Response of `POST /orders/checkout` (variant 1). -/
inductive CheckoutResp where
  | placed (orderId : Nat) (total : Int)
  | badRequest (msg : String)
  | serverError
  deriving DecidableEq, Repr

/-- HTTP status code of a checkout response. -/
def CheckoutResp.statusCode : CheckoutResp → Nat
  | .placed _ _ => 200
  | .badRequest _ => 400
  | .serverError => 500

/-- A cart line joined with its product (`include: { product: … }`). -/
abbrev Line := CartItem × Product

/-- Resolution of the `product` relation for each cart line.  A line
whose product row is missing (broken foreign key) makes the whole query
fail, which the route's catch turns into a 500. -/
def resolveLines (db : DB) : List CartItem → Option (List Line)
  | [] => some []
  | ci :: rest =>
      match findProduct db ci.productId, resolveLines db rest with
      | some p, some ls => some ((ci, p) :: ls)
      | _, _ => none

/-- Embeds `cart.items.reduce((sum, item) => sum + item.qty * item.product.price, 0)`. -/
def checkoutTotal (lines : List Line) : Int :=
  lines.foldl (fun s l => s + l.1.qty * l.2.price) 0

/-- The stock decrement loop of the checkout transaction: one
`tx.product.update({ where: { id: item.productId }, data: { stock:
{ decrement: item.qty } } })` per cart line, in cart order. -/
def decrementAll (lines : List Line) (ps : List Product) : List Product :=
  lines.foldl
    (fun acc l =>
      acc.map (fun p =>
        if p.id = l.1.productId then { p with stock := p.stock - l.1.qty } else p))
    ps

/-- The OrderItem snapshot created for one cart line:
`{ productId: item.productId, qty: item.qty, price: item.product.price }`. -/
def mkOrderItem (oid : Nat) (l : Line) : OrderItem :=
  { orderId := oid, productId := l.1.productId, qty := l.1.qty, price := l.2.price }

/-- The body of the `prisma.$transaction` in checkout variant 1:
create the order with snapshotted items, create the PENDING payment,
decrement stock per line, delete the cart's items.  The order id and the
payment id are the two freshly allocated serials. -/
def applyTxn (db : DB) (rq : CheckoutReq) (cart : Cart) (lines : List Line) : DB :=
  let oid := db.nextId
  let total := checkoutTotal lines
  { db with
    orders := db.orders ++
      [{ id := oid, userId := rq.userId, total := total, status := "PENDING",
         shippingAddress := some rq.address, shippingCity := some rq.city,
         shippingPhone := some rq.phone }],
    orderItems := db.orderItems ++ lines.map (mkOrderItem oid),
    payments := db.payments ++
      [{ id := oid + 1, orderId := oid, method := rq.method, amount := total,
         status := "PENDING" }],
    products := decrementAll lines db.products,
    cartItems := db.cartItems.filter (fun ci => ci.cartId != cart.id),
    nextId := db.nextId + 2 }

/-- The seller of each line (`item.product.seller.id`); a line whose
product has no seller makes the seller-map construction throw. -/
def linesSellers : List Line → Option (List Nat)
  | [] => some []
  | l :: rest =>
      match l.2.sellerId, linesSellers rest with
      | some s, some ss => some (s :: ss)
      | _, _ => none

/-- Insertion of a number into a sorted list (ascending). -/
def insertNat (a : Nat) : List Nat → List Nat
  | [] => [a]
  | b :: rest => if a ≤ b then a :: b :: rest else b :: insertNat a rest

/-- Ascending insertion sort; JS `for (const k in obj)` enumerates the
integer-like keys of the seller map in ascending numeric order. -/
def sortNat : List Nat → List Nat
  | [] => []
  | a :: rest => insertNat a (sortNat rest)

/-- The distinct seller ids of the order, in the enumeration order of the
seller map object. -/
def sellerKeys (sids : List Nat) : List Nat :=
  sortNat sids.eraseDups

/-- The buyer notification argument of the checkout side-effect block. -/
def userNotifInput (uid oid : Nat) : NotificationInput :=
  { userId := some uid,
    message := "Your order #" ++ toString oid ++ " has been placed successfully.",
    link := some ("/orders/" ++ toString oid) }

/-- The per-seller notification argument of the checkout side-effect
block. -/
def sellerNotifInput (oid s : Nat) : NotificationInput :=
  { sellerId := some s,
    message := "New order #" ++ toString oid ++ " includes your products.",
    link := some ("/seller/orders/" ++ toString oid) }

/-- The admin notification argument of the checkout side-effect block:
the call passes `role: "ADMIN"` and neither userId nor sellerId. -/
def adminNotifInput (oid : Nat) (total : Int) (userName : String) :
    NotificationInput :=
  { role := some "ADMIN",
    message := "New Order #" ++ toString oid ++ " placed by " ++ userName ++
      ". Total: Rs " ++ toString total,
    link := some ("/admin/orders/" ++ toString oid) }

/-- One seller notification per distinct seller of the order. -/
def addSellerNotifs (db : DB) (oid : Nat) (sids : List Nat) : DB :=
  sids.foldl (fun d s => createNotification d (sellerNotifInput oid s)) db

/-- The notification rows created by the detached side-effect block of
checkout variant 1 (order.ts lines 228-311): build the seller map (throws
onto the global catch if a product has no seller, creating nothing), then
notify the buyer, each seller, and the admin — the admin call passes
`role: "ADMIN"`, which `createNotification` drops. -/
def addCheckoutNotifs (db : DB) (rq : CheckoutReq) (oid : Nat) (total : Int)
    (lines : List Line) : DB :=
  match linesSellers lines with
  | none => db
  | some sids =>
      let db1 := createNotification db (userNotifInput rq.userId oid)
      let db2 := addSellerNotifs db1 oid (sellerKeys sids)
      createNotification db2 (adminNotifInput oid total rq.userName)

/-- Embeds `POST /orders/checkout`, variant 1 (order.ts lines 142-332): field
guard, cart guard, stock check, the transaction, then the detached
side-effect block (every channel individually try/caught; a notification
failure creates no rows but never reaches the response). -/
def checkout (db : DB) (rq : CheckoutReq) (eff : Effects) : DB × CheckoutResp :=
  if rq.method = "" ∨ rq.address = "" ∨ rq.city = "" ∨ rq.phone = "" then
    (db, .badRequest "All fields (method, address, city, phone) are required")
  else
    match findCart db rq.userId with
    | none => (db, .badRequest "Cart is empty")
    | some cart =>
        let items := cartLines db cart.id
        if items.isEmpty then (db, .badRequest "Cart is empty")
        else
          match resolveLines db items with
          | none => (db, .serverError)
          | some lines =>
              match lines.find? (fun l => decide (l.2.stock < l.1.qty)) with
              | some l => (db, .badRequest ("Not enough stock for " ++ l.2.title))
              | none =>
                  let oid := db.nextId
                  let total := checkoutTotal lines
                  let db1 := applyTxn db rq cart lines
                  let db2 := if eff.notifOk then addCheckoutNotifs db1 rq oid total lines
                             else db1
                  (db2, .placed oid total)

/-- Response of the status-update, tracking, and similar routes. -/
inductive StatusResp where
  | ok
  | badRequest (msg : String)
  | serverError
  deriving DecidableEq, Repr

/-- The `prisma.payment.findUnique`-style lookup through the order's included
`payment` relation (Payment.orderId is UNIQUE). -/
def paymentFor (db : DB) (oid : Nat) : Option Payment :=
  db.payments.find? (fun p => p.orderId == oid)

/-- The payment sync shared by `PUT /orders/:id/status` and
`POST /orders/tracking` (variant 1): if the new status is DELIVERED and
the order has a payment, that payment's status is set to SUCCESS. -/
def markPaid (db : DB) (oid : Nat) (status : String) : DB :=
  if status = "DELIVERED" then
    match paymentFor db oid with
    | some p =>
        { db with payments := db.payments.map (fun q =>
            if q.id == p.id then { q with status := "SUCCESS" } else q) }
    | none => db
  else db

/-- Embeds `PUT /orders/:id/status` (order.ts variant 1, lines 441-516): status
required; `prisma.order.update` (a missing order throws into the catch,
yielding 500 with no change); payment sync; tracking append; then a
try/caught e-mail and a try/caught buyer notification (`notifOk` tells
whether the notification insert succeeds). -/
def updateStatus (db : DB) (orderId : Nat) (status : String) (notifOk : Bool) :
    DB × StatusResp :=
  if status = "" then (db, .badRequest "Status is required")
  else
    match db.orders.find? (fun o => o.id == orderId) with
    | none => (db, .serverError)
    | some o =>
        let db1 := { db with orders := db.orders.map (fun q =>
          if q.id == orderId then { q with status := status } else q) }
        let db2 := markPaid db1 orderId status
        let db3 := { db2 with tracking := db2.tracking ++
          [{ orderId := orderId, status := status,
             message := "Order moved to " ++ status }] }
        let db4 :=
          if notifOk then
            createNotification db3
              { userId := some o.userId,
                message := "Your order #" ++ toString orderId ++
                  " status updated to: " ++ status ++ ".",
                link := some ("/orders/" ++ toString orderId) }
          else db3
        (db4, .ok)

/-- Embeds `POST /orders/tracking` (order.ts variant 1, lines 522-559):
`prisma.order.update` (missing order -> catch -> 500), payment sync, and
a tracking row with the request's message. -/
def trackingUpdate (db : DB) (orderId : Nat) (status message : String) :
    DB × StatusResp :=
  match db.orders.find? (fun o => o.id == orderId) with
  | none => (db, .serverError)
  | some _ =>
      let db1 := { db with orders := db.orders.map (fun q =>
        if q.id == orderId then { q with status := status } else q) }
      let db2 := markPaid db1 orderId status
      ({ db2 with tracking := db2.tracking ++
          [{ orderId := orderId, status := status, message := message }] }, .ok)

/-- One invocation of either status-changing route. -/
inductive StatusOp where
  | putStatus (orderId : Nat) (status : String)
  | postTracking (orderId : Nat) (status : String) (message : String)
  deriving DecidableEq, Repr

/-- The database effect of a status-changing call. -/
def stepStatus (db : DB) (op : StatusOp) : DB :=
  match op with
  | .putStatus oid st => (updateStatus db oid st true).1
  | .postTracking oid st m => (trackingUpdate db oid st m).1

/-- Whether an operation marks the given order DELIVERED. -/
def StatusOp.deliversTo (op : StatusOp) (oid : Nat) : Prop :=
  match op with
  | .putStatus o st => o = oid ∧ st = "DELIVERED"
  | .postTracking o st _ => o = oid ∧ st = "DELIVERED"

instance (op : StatusOp) (oid : Nat) : Decidable (op.deliversTo oid) := by
  cases op <;> simp [StatusOp.deliversTo] <;> infer_instance

/-- Whether the order's payment currently has status SUCCESS. -/
def isSucc (db : DB) (oid : Nat) : Bool :=
  match paymentFor db oid with
  | some p => p.status == "SUCCESS"
  | none => false

/-- Number of steps of a trace at which the order's payment goes from a
non-SUCCESS status to SUCCESS. -/
def riseCount (oid : Nat) : DB → List StatusOp → Nat
  | _, [] => 0
  | db, op :: rest =>
      let db1 := stepStatus db op
      (if !isSucc db oid && isSucc db1 oid then 1 else 0) + riseCount oid db1 rest

/-- Response of `DELETE /orders/:id`. -/
inductive DeleteResp where
  | deleted
  | notFound
  | forbidden
  | badRequest
  | serverError
  deriving DecidableEq, Repr

/-- Embeds `DELETE /orders/:id` (order.ts variant 1, lines 337-358): existence,
ownership and PENDING checks, then `orderItem.deleteMany` followed by
`order.delete`.  The delete is subject to the ON DELETE RESTRICT foreign
keys of Payment.orderId and TrackingHistory.orderId (migration.sql), so
it throws — after the items were already removed — when such a row still
references the order. -/
def deleteOrder (db : DB) (uid oid : Nat) : DB × DeleteResp :=
  match db.orders.find? (fun o => o.id == oid) with
  | none => (db, .notFound)
  | some o =>
      if o.userId ≠ uid then (db, .forbidden)
      else if o.status ≠ "PENDING" then (db, .badRequest)
      else
        let db1 := { db with orderItems :=
          db.orderItems.filter (fun it => it.orderId != oid) }
        if db1.payments.any (fun p => p.orderId == oid) ||
           db1.tracking.any (fun t => t.orderId == oid) then
          (db1, .serverError)
        else
          ({ db1 with orders := db1.orders.filter (fun q => q.id != oid) }, .deleted)

/-- Response of the cart routes. -/
inductive CartResp where
  | ok
  | badRequest (msg : String)
  | notFound (msg : String)
  deriving DecidableEq, Repr

/-- The `prisma.cartItem.update` of the merge branch: set the matched
line's quantity to `existingItem.qty + qty`. -/
def bumpQty (exId : Nat) (newQty : Int) (ci : CartItem) : CartItem :=
  if ci.id == exId then { ci with qty := newQty } else ci

/-- Find-or-create of the caller's cart (cart.ts lines 46-49). -/
def ensureCart (db : DB) (uid : Nat) : DB × Cart :=
  match findCart db uid with
  | some c => (db, c)
  | none =>
      let c : Cart := { id := db.nextId, userId := uid }
      ({ db with carts := db.carts ++ [c], nextId := db.nextId + 1 }, c)

/-- Embeds `POST /cart` (cart.ts lines 35-70): validate, ensure the product
exists, find or create the user's cart, then either increment the
existing line for that product or append a new line. -/
def addToCart (db : DB) (uid pid : Nat) (qty : Int) : DB × CartResp :=
  if pid = 0 ∨ qty ≤ 0 then (db, .badRequest "Invalid product or quantity")
  else
    match findProduct db pid with
    | none => (db, .notFound "Product not found")
    | some _ =>
        let db1 := (ensureCart db uid).1
        let cart := (ensureCart db uid).2
        match db1.cartItems.find? (fun ci => ci.cartId == cart.id && ci.productId == pid) with
        | some ex =>
            ({ db1 with
                cartItems := db1.cartItems.map (bumpQty ex.id (ex.qty + qty)) }, .ok)
        | none =>
            ({ db1 with
                cartItems := db1.cartItems ++
                  [{ id := db1.nextId, cartId := cart.id, productId := pid, qty := qty }],
                nextId := db1.nextId + 1 }, .ok)

/-- No cart holds two lines for the same product. -/
def NoDupLines (db : DB) : Prop :=
  db.cartItems.Pairwise (fun a b => a.cartId = b.cartId → a.productId ≠ b.productId)

instance (db : DB) : Decidable (NoDupLines db) := by
  unfold NoDupLines; infer_instance

/-- The caller's role claim. -/
inductive Role where
  | USER
  | SELLER
  | ADMIN
  deriving DecidableEq, Repr

/-- A parsed CSV row of the products import, after the handler's
column-name coalescing (`row.Title || row.title`, …).  Empty strings
stand for absent (falsy) text cells; `id` and `sellerIdCol` are the
numeric `ID` and `SellerID` cells when present. -/
structure CsvRow where
  id : Option Nat
  title : String
  description : String
  price : Int
  stock : Int
  image : String
  category : String
  sellerIdCol : Option Nat
  deriving DecidableEq, Repr

/-- JS `toLowerCase` / Prisma `mode: "insensitive"` matching, written
over the character list so it evaluates. -/
def lowerStr (s : String) : String :=
  String.mk (s.data.map Char.toLower)

/-- JS `String.prototype.trim`, written over the character list so it
evaluates. -/
def trimStr (s : String) : String :=
  String.mk
    (((s.data.dropWhile Char.isWhitespace).reverse.dropWhile Char.isWhitespace).reverse)

/-- The `productData` object built for a row (part_004 lines 104-123):
the image key is present only when the cell is non-empty and not the
`BASE64_IMAGE_KEEP_EXISTING` sentinel. -/
structure ProductData where
  title : String
  description : String
  price : Int
  stock : Int
  categoryId : Nat
  image : Option String
  deriving DecidableEq, Repr

/-- Builds `productData` from a row and the resolved category id. -/
def productDataOf (row : CsvRow) (categoryId : Nat) : ProductData :=
  { title := row.title, description := row.description, price := row.price,
    stock := row.stock, categoryId := categoryId,
    image := if row.image ≠ "" ∧ row.image ≠ "BASE64_IMAGE_KEEP_EXISTING"
             then some row.image else none }

/-- Embeds `prisma.product.update({ where: { id }, data })`: fields present in
the data object overwrite the row, so the image is kept when the data
carries no image key. -/
def applyData (p : Product) (d : ProductData) : Product :=
  { p with
    title := d.title, description := d.description, price := d.price,
    stock := d.stock, categoryId := d.categoryId,
    image := d.image.getD p.image }

/-- Update of the product with the given id. -/
def updateProductRow (ps : List Product) (pid : Nat) (d : ProductData) :
    List Product :=
  ps.map (fun p => if p.id = pid then applyData p d else p)

/-- Embeds `prisma.product.create` for an import row:
`{ ...productData, sellerId, image: productData.image || "" }`. -/
def createProductRow (db : DB) (d : ProductData) (sellerId : Nat) : DB :=
  { db with
    products := db.products ++
      [{ id := db.nextId, sellerId := some sellerId, categoryId := d.categoryId,
         title := d.title, description := d.description, price := d.price,
         stock := d.stock, image := d.image.getD "" }],
    nextId := db.nextId + 1 }

/-- The `(title, seller)` duplicate check (part_004 lines 140-145 and
164-169): first product whose title matches case-insensitively and whose
sellerId equals the row's SellerID cell, or the caller, if absent. -/
def findDup (db : DB) (title : String) (sid : Nat) : Option Product :=
  db.products.find? (fun p =>
    lowerStr p.title == lowerStr title && p.sellerId == some sid)

/-- Category resolution for an import row (part_004 lines 78-99): absent
cell keeps the default id 1; otherwise a case-insensitive lookup on the
trimmed name, creating the category (owned by the caller unless ADMIN)
when no match exists. -/
def resolveCategory (db : DB) (role : Role) (sid : Nat) (row : CsvRow) :
    DB × Nat :=
  if row.category = "" then (db, 1)
  else
    let safeName := trimStr row.category
    match db.categories.find? (fun c => lowerStr c.name == lowerStr safeName) with
    | some c => (db, c.id)
    | none =>
        let cid := db.nextId
        ({ db with
            categories := db.categories ++
              [{ id := cid, name := safeName, image := "",
                 sellerId := if role = .ADMIN then none else some sid }],
            nextId := db.nextId + 1 }, cid)

/-- Processing of one CSV row of `POST /bulk/products/import` (part_004
lines 77-186).  Returns the new state and the (created, updated) count
deltas.  Note the branch where the row carries the id of an existing
product but the caller is neither ADMIN nor its owner: the row is
skipped outright. -/
def importRow (db : DB) (role : Role) (sid : Nat) (row : CsvRow) :
    DB × Nat × Nat :=
  let rc := resolveCategory db role sid row
  let db1 := rc.1
  let data := productDataOf row rc.2
  let dupSid := row.sellerIdCol.getD sid
  match row.id with
  | some i =>
      match db1.products.find? (fun p => p.id == i) with
      | some existing =>
          if role = .ADMIN ∨ existing.sellerId = some sid then
            ({ db1 with products := updateProductRow db1.products i data }, 0, 1)
          else (db1, 0, 0)
      | none =>
          match findDup db1 data.title dupSid with
          | some dup =>
              ({ db1 with products := updateProductRow db1.products dup.id data }, 0, 1)
          | none => (createProductRow db1 data dupSid, 1, 0)
  | none =>
      match findDup db1 data.title dupSid with
      | some dup =>
          ({ db1 with products := updateProductRow db1.products dup.id data }, 0, 1)
      | none => (createProductRow db1 data dupSid, 1, 0)

/-- Outcome of checkout variant 3 (order.ts lines 1448-1625).  That
handler has no try/catch and awaits every side effect, so a rejected
e-mail or notification promise escapes the handler: no response is sent
(`crashed`). -/
inductive V3Resp where
  | placed (orderId : Nat) (total : Int)
  | badRequest (msg : String)
  | crashed
  deriving DecidableEq, Repr

/-- Embeds `POST /orders/checkout`, variant 3 (order.ts lines 1448-1625): same
guards and transaction as variant 1, but the seller map is built before
the transaction and the seller e-mails, admin e-mail and notification
inserts are awaited afterwards with no catch.  `cfgAdminEmails` tells
whether ADMIN_EMAIL is configured; `eff.mailOk`/`eff.notifOk` tell
whether those awaited calls succeed. -/
def checkoutV3 (db : DB) (rq : CheckoutReq) (cfgAdminEmails : Bool)
    (eff : Effects) : DB × V3Resp :=
  if rq.method = "" ∨ rq.address = "" ∨ rq.city = "" ∨ rq.phone = "" then
    (db, .badRequest "All fields (method, address, city, phone) are required")
  else
    match findCart db rq.userId with
    | none => (db, .badRequest "Cart is empty")
    | some cart =>
        let items := cartLines db cart.id
        if items.isEmpty then (db, .badRequest "Cart is empty")
        else
          match resolveLines db items with
          | none => (db, .crashed)
          | some lines =>
              match lines.find? (fun l => decide (l.2.stock < l.1.qty)) with
              | some l => (db, .badRequest ("Not enough stock for " ++ l.2.title))
              | none =>
                  match linesSellers lines with
                  | none => (db, .crashed)
                  | some sids =>
                      let oid := db.nextId
                      let total := checkoutTotal lines
                      let db1 := applyTxn db rq cart lines
                      if (¬ (sellerKeys sids).isEmpty ∨ cfgAdminEmails) ∧
                         eff.mailOk = false then
                        (db1, .crashed)
                      else if eff.notifOk = false then
                        (db1, .crashed)
                      else
                        let db2 := createNotification db1
                          { userId := some rq.userId,
                            message := "Your order #" ++ toString oid ++
                              " has been placed successfully.",
                            link := some ("/orders/" ++ toString oid) }
                        let db3 := lines.foldl
                          (fun d l => createNotification d
                            { sellerId := l.2.sellerId,
                              message := "New order #" ++ toString oid ++
                                " includes your products.",
                              link := some ("/seller/orders/" ++ toString oid) })
                          db2
                        let db4 := createNotification db3
                          { role := some "ADMIN",
                            message := "New Order #" ++ toString oid ++
                              " placed by " ++ rq.userName ++ ". Total: Rs " ++
                              toString total,
                            link := some ("/admin/orders/" ++ toString oid) }
                        (db4, .placed oid total)

/-- Computes `sum(OrderItem.qty * price)` over a list of order items. -/
def itemsTotal (l : List OrderItem) : Int :=
  l.foldl (fun s oi => s + oi.qty * oi.price) 0

/-- Total quantity the decrement loop subtracts from the product with the
given id. -/
def linesQty : List Line → Nat → Int
  | [], _ => 0
  | l :: rest, pid =>
      (if l.1.productId = pid then l.1.qty else 0) + linesQty rest pid

/-- A one-product, one-cart-line store in which the line fits the stock
(used to instantiate the theorems below). -/
def dbOK : DB :=
  { products := [{ id := 1, sellerId := some 10, categoryId := 1, title := "Rice",
                   description := "", price := 50, stock := 5, image := "" }],
    categories := [], carts := [{ id := 2, userId := 7 }],
    cartItems := [{ id := 3, cartId := 2, productId := 1, qty := 2 }],
    orders := [], orderItems := [], payments := [], notifications := [],
    tracking := [], nextId := 4 }

/-- Like `dbOK`, but the cart line asks for more than the stock. -/
def dbLow : DB :=
  { dbOK with cartItems := [{ id := 3, cartId := 2, productId := 1, qty := 9 }] }

/-- A well-formed checkout request for user 7. -/
def rqA : CheckoutReq :=
  { userId := 7, userName := "Ali", method := "COD", address := "A", city := "C",
    phone := "P" }

/-- All side-effect channels succeed. -/
def effsAll : Effects := { notifOk := true, mailOk := true, waOk := true }

/-- A store holding one PENDING order with its PENDING payment. -/
def dbOrder : DB :=
  { products := [], categories := [], carts := [], cartItems := [],
    orders := [{ id := 1, userId := 7, total := 100, status := "PENDING",
                 shippingAddress := none, shippingCity := none,
                 shippingPhone := none }],
    orderItems := [{ orderId := 1, productId := 9, qty := 2, price := 50 }],
    payments := [{ id := 2, orderId := 1, method := "COD", amount := 100,
                   status := "PENDING" }],
    notifications := [], tracking := [], nextId := 3 }

/-- A store holding one PENDING order without payment or tracking rows
(the shape produced by the manual-order route), deletable by its owner. -/
def dbOrderNoPay : DB :=
  { products := [{ id := 9, sellerId := some 10, categoryId := 1, title := "Rice",
                   description := "", price := 50, stock := 5, image := "" }],
    categories := [], carts := [], cartItems := [],
    orders := [{ id := 1, userId := 7, total := 100, status := "PENDING",
                 shippingAddress := none, shippingCity := none,
                 shippingPhone := none }],
    orderItems := [{ orderId := 1, productId := 9, qty := 2, price := 50 }],
    payments := [], notifications := [], tracking := [], nextId := 10 }

/-- A store for the import claims: product 5 belongs to seller 2;
category 1 exists. -/
def dbImport : DB :=
  { products := [{ id := 5, sellerId := some 2, categoryId := 1, title := "Rice",
                   description := "old", price := 50, stock := 5, image := "x" }],
    categories := [{ id := 1, name := "General", image := "", sellerId := none }],
    carts := [], cartItems := [], orders := [], orderItems := [], payments := [],
    notifications := [], tracking := [], nextId := 6 }

/-- An import row carrying the id of product 5 with a fresh title. -/
def rowSkip : CsvRow :=
  { id := some 5, title := "Beans", description := "new", price := 10, stock := 1,
    image := "", category := "", sellerIdCol := none }

/-- An import row with no id and a fresh title and category. -/
def rowNew : CsvRow :=
  { id := none, title := "Beans", description := "new", price := 10, stock := 1,
    image := "", category := "Pulses", sellerIdCol := none }

/-- The single cart line of `dbOK` joined with its product. -/
def lineA : Line :=
  ({ id := 3, cartId := 2, productId := 1, qty := 2 },
   { id := 1, sellerId := some 10, categoryId := 1, title := "Rice",
     description := "", price := 50, stock := 5, image := "" })

/-! ## General lemmas about the embedded operations -/

theorem find?_map_pres {α : Type} (f : α → α) (pr : α → Bool)
    (h : ∀ a, pr (f a) = pr a) :
    ∀ l : List α, (l.map f).find? pr = (l.find? pr).map f := by
  intro l
  induction l with
  | nil => rfl
  | cons a rest ih =>
      cases hpa : pr a with
      | true => simp [List.find?, h a, hpa]
      | false => simp [List.find?, h a, hpa, ih]

theorem resolveLines_fst (db : DB) :
    ∀ (items : List CartItem) (lines : List Line),
      resolveLines db items = some lines → lines.map Prod.fst = items := by
  intro items
  induction items with
  | nil =>
      intro lines h
      simp [resolveLines] at h
      subst h
      rfl
  | cons a rest ih =>
      intro lines h
      unfold resolveLines at h
      split at h
      · rename_i p ls hp hls
        cases h
        simp [ih ls hls]
      · cases h

theorem resolveLines_mem (db : DB) :
    ∀ (items : List CartItem) (lines : List Line),
      resolveLines db items = some lines →
      ∀ ci ∈ items, ∀ p, findProduct db ci.productId = some p → (ci, p) ∈ lines := by
  intro items
  induction items with
  | nil => intro lines _ ci hci; cases hci
  | cons a rest ih =>
      intro lines h ci hci p hp
      unfold resolveLines at h
      split at h
      · rename_i q ls hq hls
        cases h
        rcases List.mem_cons.mp hci with hcia | hcir
        · subst hcia
          rw [hp] at hq
          cases hq
          exact List.mem_cons_self _ _
        · exact List.mem_cons_of_mem _ (ih ls hls ci hcir p hp)
      · cases h

theorem resolveLines_isSome (db : DB) :
    ∀ items : List CartItem,
      (∀ ci ∈ items, (findProduct db ci.productId).isSome) →
      (resolveLines db items).isSome := by
  intro items
  induction items with
  | nil => intro _; rfl
  | cons a rest ih =>
      intro hfk
      obtain ⟨p, hp⟩ := Option.isSome_iff_exists.mp (hfk a (List.mem_cons_self _ _))
      obtain ⟨ls, hls⟩ := Option.isSome_iff_exists.mp
        (ih (fun ci hci => hfk ci (List.mem_cons_of_mem _ hci)))
      unfold resolveLines
      rw [hp, hls]
      rfl

theorem addSellerNotifs_eq (oid : Nat) :
    ∀ (l : List Nat) (db : DB),
      addSellerNotifs db oid l =
        { db with notifications :=
            db.notifications ++ l.map (fun s => notifRowOf (sellerNotifInput oid s)) } := by
  intro l
  induction l with
  | nil => intro db; simp [addSellerNotifs]
  | cons a rest ih =>
      intro db
      simp only [addSellerNotifs, List.foldl_cons, List.map_cons]
      have h1 := ih (createNotification db (sellerNotifInput oid a))
      simp only [addSellerNotifs] at h1
      rw [h1]
      simp [createNotification]

theorem addCheckoutNotifs_frame (db : DB) (rq : CheckoutReq) (oid : Nat)
    (t : Int) (lines : List Line) :
    (addCheckoutNotifs db rq oid t lines).products = db.products ∧
    (addCheckoutNotifs db rq oid t lines).carts = db.carts ∧
    (addCheckoutNotifs db rq oid t lines).cartItems = db.cartItems ∧
    (addCheckoutNotifs db rq oid t lines).orders = db.orders ∧
    (addCheckoutNotifs db rq oid t lines).orderItems = db.orderItems ∧
    (addCheckoutNotifs db rq oid t lines).payments = db.payments := by
  unfold addCheckoutNotifs
  cases h : linesSellers lines with
  | none => exact ⟨rfl, rfl, rfl, rfl, rfl, rfl⟩
  | some sids =>
      simp only [addSellerNotifs_eq]
      exact ⟨rfl, rfl, rfl, rfl, rfl, rfl⟩

theorem checkout_placed_inv (db : DB) (rq : CheckoutReq) (eff : Effects)
    {db' : DB} {oid : Nat} {t : Int}
    (h : checkout db rq eff = (db', .placed oid t)) :
    ∃ cart lines,
      findCart db rq.userId = some cart ∧
      resolveLines db (cartLines db cart.id) = some lines ∧
      lines.find? (fun l => decide (l.2.stock < l.1.qty)) = none ∧
      oid = db.nextId ∧ t = checkoutTotal lines ∧
      db' = (if eff.notifOk then
               addCheckoutNotifs (applyTxn db rq cart lines) rq db.nextId
                 (checkoutTotal lines) lines
             else applyTxn db rq cart lines) := by
  unfold checkout at h
  by_cases hf : rq.method = "" ∨ rq.address = "" ∨ rq.city = "" ∨ rq.phone = ""
  · rw [if_pos hf] at h
    simp at h
  · rw [if_neg hf] at h
    cases hc : findCart db rq.userId with
    | none => rw [hc] at h; simp at h
    | some cart =>
        rw [hc] at h
        by_cases he : (cartLines db cart.id).isEmpty
        · simp only [he] at h
          simp at h
        · cases hr : resolveLines db (cartLines db cart.id) with
          | none =>
              rw [Bool.not_eq_true] at he
              simp only [he, hr] at h
              simp at h
          | some lines =>
              rw [Bool.not_eq_true] at he
              cases hfind : lines.find? (fun l => decide (l.2.stock < l.1.qty)) with
              | some l =>
                  simp only [he, hr, hfind] at h
                  simp at h
              | none =>
                  simp only [he, Bool.false_eq_true, if_false, hr, hfind,
                    Prod.mk.injEq, CheckoutResp.placed.injEq] at h
                  exact ⟨cart, lines, rfl, hr, hfind, h.2.1.symm, h.2.2.symm, h.1.symm⟩

theorem filter_ne_filter_eq_nil (l : List CartItem) (cid : Nat) :
    (l.filter (fun ci => ci.cartId != cid)).filter (fun ci => ci.cartId == cid) = [] := by
  induction l with
  | nil => rfl
  | cons a rest ih =>
      by_cases hc : a.cartId = cid
      · simp [List.filter_cons, hc, ih]
      · simp [List.filter_cons, hc, ih]

/-! ## C1: a cart line exceeding the stock aborts checkout with 400 and
no state change -/

/-- C1.  If some line of the caller's cart asks for more than the
product's stock, `POST /orders/checkout` answers 400 and the database is
completely untouched: no Order, no Payment, no stock change, and the
cart's items remain (in a store whose cart lines all reference existing
products, as the CartItem foreign key guarantees). -/
theorem checkout_stock_violation_rejected (db : DB) (rq : CheckoutReq)
    (eff : Effects) (cart : Cart)
    (hfk : ∀ ci ∈ db.cartItems, (db.products.find? (fun p => p.id == ci.productId)).isSome)
    (hcart : findCart db rq.userId = some cart)
    (hbad : ∃ ci ∈ cartLines db cart.id,
      ∃ p, findProduct db ci.productId = some p ∧ p.stock < ci.qty) :
    (checkout db rq eff).2.statusCode = 400 ∧ (checkout db rq eff).1 = db := by
  obtain ⟨ci, hci, p, hp, hlt⟩ := hbad
  have hfk2 : ∀ cj ∈ cartLines db cart.id, (findProduct db cj.productId).isSome := by
    intro cj hcj
    exact hfk cj (List.mem_filter.mp hcj).1
  obtain ⟨lines, hlines⟩ :=
    Option.isSome_iff_exists.mp (resolveLines_isSome db _ hfk2)
  have hmem : (ci, p) ∈ lines := resolveLines_mem db _ lines hlines ci hci p hp
  have hfound : (lines.find? (fun l => decide (l.2.stock < l.1.qty))).isSome := by
    rw [List.find?_isSome]
    exact ⟨(ci, p), hmem, by simpa using hlt⟩
  obtain ⟨lv, hlv⟩ := Option.isSome_iff_exists.mp hfound
  unfold checkout
  by_cases hf : rq.method = "" ∨ rq.address = "" ∨ rq.city = "" ∨ rq.phone = ""
  · rw [if_pos hf]
    exact ⟨rfl, rfl⟩
  · rw [if_neg hf, hcart]
    have hne : (cartLines db cart.id).isEmpty = false := by
      cases hcl : cartLines db cart.id with
      | nil => rw [hcl] at hci; cases hci
      | cons x xs => rfl
    simp [hne, hlines, hlv, CheckoutResp.statusCode]

/-- Witness for C1 at a concrete store: one product with stock 5, one
cart line asking for 9. -/
theorem checkout_stock_violation_rejected_witness :
    (checkout dbLow rqA effsAll).2.statusCode = 400 ∧
    (checkout dbLow rqA effsAll).1 = dbLow :=
  checkout_stock_violation_rejected dbLow rqA effsAll { id := 2, userId := 7 }
    (by decide) (by decide)
    ⟨{ id := 3, cartId := 2, productId := 1, qty := 9 }, by decide,
     { id := 1, sellerId := some 10, categoryId := 1, title := "Rice",
       description := "", price := 50, stock := 5, image := "" },
     by decide, by decide⟩

/-! ## C4: a successful checkout empties exactly the caller's cart -/

/-- C4.  Immediately after a successful checkout the caller's cart has
zero items while its Cart row survives, and the lines of every other
cart are exactly as before (the transaction deletes `cartItem` rows
`where { cartId: cart.id }` only and never touches the `cart` table). -/
theorem checkout_clears_cart_only (db : DB) (rq : CheckoutReq) (eff : Effects)
    (cart : Cart) (db' : DB) (oid : Nat) (t : Int)
    (hcart : findCart db rq.userId = some cart)
    (h : checkout db rq eff = (db', .placed oid t)) :
    db'.carts = db.carts ∧ cart ∈ db'.carts ∧
    db'.cartItems = db.cartItems.filter (fun ci => ci.cartId != cart.id) ∧
    cartLines db' cart.id = [] := by
  obtain ⟨cart', lines, hc', hres, hfind, hoid, ht, hdb⟩ := checkout_placed_inv db rq eff h
  rw [hcart] at hc'
  cases hc'
  have hframe := addCheckoutNotifs_frame (applyTxn db rq cart lines) rq db.nextId
    (checkoutTotal lines) lines
  have hcarts : db'.carts = db.carts := by
    cases hno : eff.notifOk with
    | true => rw [hdb, if_pos hno]; rw [hframe.2.1]; rfl
    | false => rw [hdb, if_neg (by simp [hno])]; rfl
  have hitems : db'.cartItems = db.cartItems.filter (fun ci => ci.cartId != cart.id) := by
    cases hno : eff.notifOk with
    | true => rw [hdb, if_pos hno]; rw [hframe.2.2.1]; rfl
    | false => rw [hdb, if_neg (by simp [hno])]; rfl
  refine ⟨hcarts, ?_, hitems, ?_⟩
  · rw [hcarts]
    exact List.mem_of_find?_eq_some hcart
  · unfold cartLines
    rw [hitems]
    exact filter_ne_filter_eq_nil db.cartItems cart.id

/-- Witness for C4 at a concrete store. -/
theorem checkout_clears_cart_only_witness :
    (checkout dbOK rqA effsAll).1.carts = dbOK.carts ∧
    ({ id := 2, userId := 7 } : Cart) ∈ (checkout dbOK rqA effsAll).1.carts ∧
    (checkout dbOK rqA effsAll).1.cartItems =
      dbOK.cartItems.filter (fun ci => ci.cartId != 2) ∧
    cartLines (checkout dbOK rqA effsAll).1 2 = [] :=
  checkout_clears_cart_only dbOK rqA effsAll { id := 2, userId := 7 }
    (checkout dbOK rqA effsAll).1 4 100 (by decide) (by decide)

/-! ## C2: order total, payment amount and item sum agree -/

theorem resolveLines_sound (db : DB) :
    ∀ (items : List CartItem) (lines : List Line),
      resolveLines db items = some lines →
      ∀ l ∈ lines, findProduct db l.1.productId = some l.2 := by
  intro items
  induction items with
  | nil =>
      intro lines h l hl
      simp [resolveLines] at h
      subst h
      cases hl
  | cons a rest ih =>
      intro lines h l hl
      unfold resolveLines at h
      split at h
      · rename_i q ls hq hls
        cases h
        rcases List.mem_cons.mp hl with hla | hlr
        · subst hla; exact hq
        · exact ih ls hls l hlr
      · cases h

theorem filter_old_orderItems_nil (l : List OrderItem) (n : Nat)
    (h : ∀ oi ∈ l, oi.orderId < n) :
    l.filter (fun oi => oi.orderId == n) = [] := by
  induction l with
  | nil => rfl
  | cons a rest ih =>
      have ha : a.orderId ≠ n := Nat.ne_of_lt (h a (List.mem_cons_self _ _))
      simp only [List.filter_cons]
      rw [if_neg (by simpa using ha)]
      exact ih (fun oi hoi => h oi (List.mem_cons_of_mem _ hoi))

theorem filter_new_orderItems (ls : List Line) (oid : Nat) :
    (ls.map (mkOrderItem oid)).filter (fun oi => oi.orderId == oid) =
      ls.map (mkOrderItem oid) := by
  induction ls with
  | nil => rfl
  | cons a rest ih => simp [List.filter_cons, mkOrderItem, ih]

theorem itemsTotal_of_lines (ls : List Line) (oid : Nat) :
    itemsTotal (ls.map (mkOrderItem oid)) = checkoutTotal ls := by
  simp [itemsTotal, checkoutTotal, mkOrderItem, List.foldl_map]

/-- C2.  For every successful checkout, the Order's total, the Payment's
amount, and `sum(qty * price)` over the created OrderItems coincide, and
every created OrderItem snapshots the product's price at checkout
time. -/
theorem checkout_totals_consistent (db : DB) (rq : CheckoutReq) (eff : Effects)
    (db' : DB) (oid : Nat) (t : Int)
    (hWF : db.WF)
    (h : checkout db rq eff = (db', .placed oid t)) :
    (∃ o ∈ db'.orders, o.id = oid ∧ o.total = t) ∧
    (∃ p ∈ db'.payments, p.orderId = oid ∧ p.amount = t) ∧
    itemsTotal (db'.orderItems.filter (fun oi => oi.orderId == oid)) = t ∧
    (∀ oi ∈ db'.orderItems, oi.orderId = oid →
       ∃ p, findProduct db oi.productId = some p ∧ oi.price = p.price) := by
  obtain ⟨cart, lines, hc, hres, hfind, hoid, ht, hdb⟩ := checkout_placed_inv db rq eff h
  subst hoid ht
  have hframe := addCheckoutNotifs_frame (applyTxn db rq cart lines) rq db.nextId
    (checkoutTotal lines) lines
  have horders : db'.orders = (applyTxn db rq cart lines).orders := by
    cases hno : eff.notifOk with
    | true => rw [hdb, if_pos hno]; exact hframe.2.2.2.1
    | false => rw [hdb, if_neg (by simp [hno])]
  have hpays : db'.payments = (applyTxn db rq cart lines).payments := by
    cases hno : eff.notifOk with
    | true => rw [hdb, if_pos hno]; exact hframe.2.2.2.2.2
    | false => rw [hdb, if_neg (by simp [hno])]
  have hois : db'.orderItems = (applyTxn db rq cart lines).orderItems := by
    cases hno : eff.notifOk with
    | true => rw [hdb, if_pos hno]; exact hframe.2.2.2.2.1
    | false => rw [hdb, if_neg (by simp [hno])]
  refine ⟨?_, ?_, ?_, ?_⟩
  · rw [horders]
    refine ⟨{ id := db.nextId, userId := rq.userId, total := checkoutTotal lines,
              status := "PENDING", shippingAddress := some rq.address,
              shippingCity := some rq.city, shippingPhone := some rq.phone }, ?_, rfl, rfl⟩
    unfold applyTxn
    simp
  · rw [hpays]
    refine ⟨{ id := db.nextId + 1, orderId := db.nextId, method := rq.method,
              amount := checkoutTotal lines, status := "PENDING" }, ?_, rfl, rfl⟩
    unfold applyTxn
    simp
  · rw [hois]
    show itemsTotal (((applyTxn db rq cart lines).orderItems).filter
      (fun oi => oi.orderId == db.nextId)) = checkoutTotal lines
    unfold applyTxn
    simp only [List.filter_append]
    rw [filter_old_orderItems_nil db.orderItems db.nextId hWF.2.2.2.2.1,
      filter_new_orderItems, List.nil_append, itemsTotal_of_lines]
  · rw [hois]
    intro oi hoi hooid
    unfold applyTxn at hoi
    simp only [List.mem_append] at hoi
    rcases hoi with hold | hnew
    · exact absurd hooid (Nat.ne_of_lt (hWF.2.2.2.2.1 oi hold))
    · obtain ⟨l, hl, hmk⟩ := List.mem_map.mp hnew
      subst hmk
      exact ⟨l.2, resolveLines_sound db _ lines hres l hl, rfl⟩

/-- Witness for C2 at a concrete store. -/
theorem checkout_totals_consistent_witness :
    (∃ o ∈ (checkout dbOK rqA effsAll).1.orders, o.id = 4 ∧ o.total = 100) ∧
    (∃ p ∈ (checkout dbOK rqA effsAll).1.payments, p.orderId = 4 ∧ p.amount = 100) ∧
    itemsTotal ((checkout dbOK rqA effsAll).1.orderItems.filter
      (fun oi => oi.orderId == 4)) = 100 ∧
    (∀ oi ∈ (checkout dbOK rqA effsAll).1.orderItems, oi.orderId = 4 →
       ∃ p, findProduct dbOK oi.productId = some p ∧ oi.price = p.price) :=
  checkout_totals_consistent dbOK rqA effsAll (checkout dbOK rqA effsAll).1 4 100
    (by decide) rfl

/-! ## C3: stock after checkout = stock before − ordered quantity -/

theorem linesQty_zero (pid : Nat) :
    ∀ lines : List Line,
      pid ∉ lines.map (fun l => l.1.productId) → linesQty lines pid = 0 := by
  intro lines
  induction lines with
  | nil => intro _; rfl
  | cons a rest ih =>
      intro hnm
      simp only [List.map_cons, List.mem_cons] at hnm
      push_neg at hnm
      unfold linesQty
      rw [if_neg (fun he => hnm.1 he.symm), ih hnm.2, zero_add]

theorem linesQty_of_mem_nodup :
    ∀ (lines : List Line),
      ((lines.map (fun l => l.1.productId)).Nodup) →
      ∀ l ∈ lines, linesQty lines l.1.productId = l.1.qty := by
  intro lines
  induction lines with
  | nil => intro _ l hl; cases hl
  | cons a rest ih =>
      intro hnd l hl
      simp only [List.map_cons, List.nodup_cons] at hnd
      rcases List.mem_cons.mp hl with hla | hlr
      · subst hla
        unfold linesQty
        rw [if_pos rfl, linesQty_zero _ rest hnd.1, add_zero]
      · have hne : a.1.productId ≠ l.1.productId := by
          intro he
          exact hnd.1 (he ▸ List.mem_map.mpr ⟨l, hlr, rfl⟩)
        unfold linesQty
        rw [if_neg hne, ih hnd.2 l hlr, zero_add]

theorem linesQty_cons (a : Line) (rest : List Line) (pid : Nat) :
    linesQty (a :: rest) pid =
      (if a.1.productId = pid then a.1.qty else 0) + linesQty rest pid := rfl

theorem decrementAll_find? :
    ∀ (lines : List Line) (ps : List Product) (pid : Nat),
      (decrementAll lines ps).find? (fun p => p.id == pid) =
        (ps.find? (fun p => p.id == pid)).map
          (fun p => { p with stock := p.stock - linesQty lines pid }) := by
  intro lines
  induction lines with
  | nil =>
      intro ps pid
      cases h : ps.find? (fun p => p.id == pid) with
      | none => simp [decrementAll, h]
      | some p => simp [decrementAll, linesQty, h]
  | cons a rest ih =>
      intro ps pid
      have hstep : decrementAll (a :: rest) ps = decrementAll rest
          (ps.map (fun p => if p.id = a.1.productId
            then { p with stock := p.stock - a.1.qty } else p)) := rfl
      rw [hstep, ih]
      rw [find?_map_pres _ _ (fun p => by by_cases hid : p.id = a.1.productId <;> simp [hid])]
      cases h : ps.find? (fun p => p.id == pid) with
      | none => rfl
      | some p =>
          have hpid : p.id = pid := by simpa using List.find?_some h
          simp only [Option.map]
          by_cases hpa : a.1.productId = pid
          · rw [if_pos (by rw [hpid, hpa]), linesQty_cons, if_pos hpa]
            simp [Int.sub_sub]
          · rw [if_neg (by rw [hpid]; exact fun he => hpa he.symm),
              linesQty_cons, if_neg hpa, zero_add]

/-- C3.  After a successful checkout, each cart line's product has stock
equal to its prior stock minus that line's quantity (stated for carts
whose lines reference pairwise-distinct products, the shape `POST /cart`
maintains). -/
theorem checkout_decrements_stock (db : DB) (rq : CheckoutReq) (eff : Effects)
    (cart : Cart) (db' : DB) (oid : Nat) (t : Int)
    (hcart : findCart db rq.userId = some cart)
    (hnd : ((cartLines db cart.id).map (fun ci => ci.productId)).Nodup)
    (h : checkout db rq eff = (db', .placed oid t)) :
    ∀ ci ∈ cartLines db cart.id, ∀ s : Int,
      stockOf db ci.productId = some s →
      stockOf db' ci.productId = some (s - ci.qty) := by
  obtain ⟨cart', lines, hc', hres, hfind, hoid, ht, hdb⟩ := checkout_placed_inv db rq eff h
  rw [hcart] at hc'
  cases hc'
  have hframe := addCheckoutNotifs_frame (applyTxn db rq cart lines) rq db.nextId
    (checkoutTotal lines) lines
  have hprods : db'.products = decrementAll lines db.products := by
    cases hno : eff.notifOk with
    | true => rw [hdb, if_pos hno]; rw [hframe.1]; rfl
    | false => rw [hdb, if_neg (by simp [hno])]; rfl
  intro ci hci s hs
  unfold stockOf at hs
  cases hp : findProduct db ci.productId with
  | none => rw [hp] at hs; cases hs
  | some p =>
      rw [hp] at hs
      have hps : p.stock = s := by simpa using hs
      have hmem : (ci, p) ∈ lines := resolveLines_mem db _ lines hres ci hci p hp
      have hnd2 : (lines.map (fun l => l.1.productId)).Nodup := by
        have hmm : lines.map (fun l => l.1.productId) =
            (cartLines db cart.id).map (fun cj => cj.productId) := by
          rw [← resolveLines_fst db _ lines hres, List.map_map]
          rfl
        rw [hmm]
        exact hnd
      have hq : linesQty lines ci.productId = ci.qty := by
        simpa using linesQty_of_mem_nodup lines hnd2 (ci, p) hmem
      unfold stockOf findProduct
      rw [hprods, decrementAll_find?]
      unfold findProduct at hp
      rw [hp]
      simp [hq, hps]

/-- Witness for C3 at a concrete store: stock 5, quantity 2, stock 3
afterwards. -/
theorem checkout_decrements_stock_witness :
    stockOf (checkout dbOK rqA effsAll).1 1 = some 3 :=
  checkout_decrements_stock dbOK rqA effsAll { id := 2, userId := 7 }
    (checkout dbOK rqA effsAll).1 4 100 (by decide) (by decide) rfl
    { id := 3, cartId := 2, productId := 1, qty := 2 } (by decide) 5 (by decide)

/-! ## C5: DELIVERED marks the payment SUCCESS, exactly once -/

theorem markPaid_frame (d : DB) (oid : Nat) (st : String) :
    (markPaid d oid st).orders = d.orders ∧
    (markPaid d oid st).tracking = d.tracking ∧
    (markPaid d oid st).notifications = d.notifications := by
  unfold markPaid
  by_cases h : st = "DELIVERED"
  · rw [if_pos h]
    cases paymentFor d oid <;> exact ⟨rfl, rfl, rfl⟩
  · rw [if_neg h]
    exact ⟨rfl, rfl, rfl⟩

theorem markPaid_payments_eq (d : DB) (oid : Nat) (st : String)
    (pays : List Payment) (h : d.payments = pays) :
    (markPaid d oid st).payments = pays ∨
    ∃ p, pays.find? (fun q => q.orderId == oid) = some p ∧
      (markPaid d oid st).payments = pays.map
        (fun q => if q.id == p.id then { q with status := "SUCCESS" } else q) := by
  subst h
  unfold markPaid paymentFor
  by_cases hst : st = "DELIVERED"
  · rw [if_pos hst]
    cases hp : d.payments.find? (fun q => q.orderId == oid) with
    | none => left; rfl
    | some p => right; exact ⟨p, rfl, rfl⟩
  · rw [if_neg hst]
    left
    rfl

theorem markPaid_delivered (d : DB) (oid : Nat) (p : Payment)
    (hp : paymentFor d oid = some p) :
    (markPaid d oid "DELIVERED").payments =
      d.payments.map (fun q => if q.id == p.id then { q with status := "SUCCESS" } else q) := by
  unfold markPaid
  rw [if_pos rfl, hp]

theorem stepStatus_payments (db : DB) (op : StatusOp) :
    (stepStatus db op).payments = db.payments ∨
    ∃ oid p, db.payments.find? (fun q => q.orderId == oid) = some p ∧
      (stepStatus db op).payments = db.payments.map
        (fun q => if q.id == p.id then { q with status := "SUCCESS" } else q) := by
  cases op with
  | putStatus oid st =>
      by_cases hst : st = ""
      · left
        show (updateStatus db oid st true).1.payments = db.payments
        unfold updateStatus
        rw [if_pos hst]
      · cases ho : db.orders.find? (fun o => o.id == oid) with
        | none =>
            left
            show (updateStatus db oid st true).1.payments = db.payments
            unfold updateStatus
            rw [if_neg hst, ho]
        | some o =>
            rcases markPaid_payments_eq
                { db with orders := db.orders.map (fun q =>
                    if q.id == oid then { q with status := st } else q) }
                oid st db.payments rfl with hL | ⟨p, hp, hR⟩
            · left
              show (updateStatus db oid st true).1.payments = db.payments
              unfold updateStatus
              rw [if_neg hst, ho]
              exact hL
            · right
              refine ⟨oid, p, hp, ?_⟩
              show (updateStatus db oid st true).1.payments = _
              unfold updateStatus
              rw [if_neg hst, ho]
              exact hR
  | postTracking oid st m =>
      cases ho : db.orders.find? (fun o => o.id == oid) with
      | none =>
          left
          show (trackingUpdate db oid st m).1.payments = db.payments
          unfold trackingUpdate
          rw [ho]
      | some o =>
          rcases markPaid_payments_eq
              { db with orders := db.orders.map (fun q =>
                  if q.id == oid then { q with status := st } else q) }
              oid st db.payments rfl with hL | ⟨p, hp, hR⟩
          · left
            show (trackingUpdate db oid st m).1.payments = db.payments
            unfold trackingUpdate
            rw [ho]
            exact hL
          · right
            refine ⟨oid, p, hp, ?_⟩
            show (trackingUpdate db oid st m).1.payments = _
            unfold trackingUpdate
            rw [ho]
            exact hR

theorem stepStatus_orders (db : DB) (op : StatusOp) :
    (stepStatus db op).orders = db.orders ∨
    ∃ oid2 st, (stepStatus db op).orders = db.orders.map
      (fun q => if q.id == oid2 then { q with status := st } else q) := by
  cases op with
  | putStatus oid st =>
      by_cases hst : st = ""
      · left
        show (updateStatus db oid st true).1.orders = db.orders
        unfold updateStatus
        rw [if_pos hst]
      · cases ho : db.orders.find? (fun o => o.id == oid) with
        | none =>
            left
            show (updateStatus db oid st true).1.orders = db.orders
            unfold updateStatus
            rw [if_neg hst, ho]
        | some o =>
            right
            refine ⟨oid, st, ?_⟩
            show (updateStatus db oid st true).1.orders = _
            unfold updateStatus
            rw [if_neg hst, ho]
            exact (markPaid_frame _ oid st).1
  | postTracking oid st m =>
      cases ho : db.orders.find? (fun o => o.id == oid) with
      | none =>
          left
          show (trackingUpdate db oid st m).1.orders = db.orders
          unfold trackingUpdate
          rw [ho]
      | some o =>
          right
          refine ⟨oid, st, ?_⟩
          show (trackingUpdate db oid st m).1.orders = _
          unfold trackingUpdate
          rw [ho]
          exact (markPaid_frame _ oid st).1

theorem isSucc_true_iff (db : DB) (oid : Nat) :
    isSucc db oid = true ↔
      ∃ p, paymentFor db oid = some p ∧ p.status = "SUCCESS" := by
  unfold isSucc
  cases h : paymentFor db oid with
  | none => simp
  | some p => simp [beq_iff_eq]

theorem isSucc_persist (db : DB) (op : StatusOp) (oid : Nat)
    (h : isSucc db oid = true) : isSucc (stepStatus db op) oid = true := by
  rw [isSucc_true_iff] at h ⊢
  obtain ⟨p, hp, hps⟩ := h
  rcases stepStatus_payments db op with hL | ⟨oid2, p2, hp2, hR⟩
  · refine ⟨p, ?_, hps⟩
    unfold paymentFor at hp ⊢
    rw [hL]
    exact hp
  · unfold paymentFor at hp ⊢
    rw [hR, find?_map_pres _ _ (fun q => by by_cases hq : (q.id == p2.id) = true <;> simp [hq])]
    rw [hp]
    by_cases hid : (p.id == p2.id) = true
    · refine ⟨{ p with status := "SUCCESS" }, ?_, rfl⟩
      simp only [Option.map]
      rw [if_pos hid]
    · refine ⟨p, ?_, hps⟩
      simp only [Option.map]
      rw [if_neg hid]

theorem deliver_sets_success (db : DB) (op : StatusOp) (oid : Nat)
    (hdel : op.deliversTo oid)
    (hord : (db.orders.find? (fun o => o.id == oid)).isSome = true)
    (hpay : (paymentFor db oid).isSome = true) :
    isSucc (stepStatus db op) oid = true := by
  obtain ⟨o, ho⟩ := Option.isSome_iff_exists.mp hord
  obtain ⟨p, hp⟩ := Option.isSome_iff_exists.mp hpay
  have key : ∀ d : DB, d.payments = db.payments →
      (markPaid d oid "DELIVERED").payments =
        db.payments.map (fun q => if q.id == p.id then { q with status := "SUCCESS" } else q) := by
    intro d hd
    have hpd : paymentFor d oid = some p := by
      unfold paymentFor
      rw [hd]
      exact hp
    rw [markPaid_delivered d oid p hpd, hd]
  have hfin : ∀ pays, pays = db.payments.map
      (fun q => if q.id == p.id then { q with status := "SUCCESS" } else q) →
      (match pays.find? (fun q => q.orderId == oid) with
       | some q => q.status == "SUCCESS"
       | none => false) = true := by
    intro pays hpays
    subst hpays
    rw [find?_map_pres _ _ (fun q => by by_cases hq : (q.id == p.id) = true <;> simp [hq])]
    unfold paymentFor at hp
    rw [hp]
    simp
  cases op with
  | putStatus oidX st =>
      obtain ⟨hoe, hste⟩ := hdel
      show isSucc (stepStatus db (.putStatus oidX st)) oid = true
      rw [hoe, hste]
      show isSucc (updateStatus db oid "DELIVERED" true).1 oid = true
      unfold isSucc paymentFor
      have hpays : (updateStatus db oid "DELIVERED" true).1.payments =
          db.payments.map (fun q => if q.id == p.id then { q with status := "SUCCESS" } else q) := by
        unfold updateStatus
        rw [if_neg (by decide), ho]
        exact key _ rfl
      rw [hpays]
      exact hfin _ rfl
  | postTracking oidX st m =>
      obtain ⟨hoe, hste⟩ := hdel
      show isSucc (stepStatus db (.postTracking oidX st m)) oid = true
      rw [hoe, hste]
      show isSucc (trackingUpdate db oid "DELIVERED" m).1 oid = true
      unfold isSucc paymentFor
      have hpays : (trackingUpdate db oid "DELIVERED" m).1.payments =
          db.payments.map (fun q => if q.id == p.id then { q with status := "SUCCESS" } else q) := by
        unfold trackingUpdate
        rw [ho]
        exact key _ rfl
      rw [hpays]
      exact hfin _ rfl

theorem stepStatus_order_isSome (db : DB) (op : StatusOp) (oid : Nat)
    (h : (db.orders.find? (fun o => o.id == oid)).isSome = true) :
    ((stepStatus db op).orders.find? (fun o => o.id == oid)).isSome = true := by
  rcases stepStatus_orders db op with hL | ⟨oid2, st, hR⟩
  · rw [hL]; exact h
  · rw [hR, find?_map_pres _ _ (fun q => by by_cases hq : (q.id == oid2) = true <;> simp [hq])]
    obtain ⟨o, ho⟩ := Option.isSome_iff_exists.mp h
    rw [ho]
    rfl

theorem stepStatus_payment_isSome (db : DB) (op : StatusOp) (oid : Nat)
    (h : (paymentFor db oid).isSome = true) :
    (paymentFor (stepStatus db op) oid).isSome = true := by
  obtain ⟨p, hp⟩ := Option.isSome_iff_exists.mp h
  unfold paymentFor at hp ⊢
  rcases stepStatus_payments db op with hL | ⟨oid2, p2, hp2, hR⟩
  · rw [hL, hp]; rfl
  · rw [hR, find?_map_pres _ _ (fun q => by by_cases hq : (q.id == p2.id) = true <;> simp [hq])]
    rw [hp]
    rfl

theorem riseCount_cons (oid : Nat) (db : DB) (op : StatusOp) (rest : List StatusOp) :
    riseCount oid db (op :: rest) =
      (if !isSucc db oid && isSucc (stepStatus db op) oid then 1 else 0) +
        riseCount oid (stepStatus db op) rest := rfl

theorem riseCount_zero_of_succ (oid : Nat) :
    ∀ (ops : List StatusOp) (db : DB), isSucc db oid = true →
      riseCount oid db ops = 0 ∧ isSucc (ops.foldl stepStatus db) oid = true := by
  intro ops
  induction ops with
  | nil => intro db h; exact ⟨rfl, h⟩
  | cons op rest ih =>
      intro db h
      have h1 := isSucc_persist db op oid h
      have h2 := ih (stepStatus db op) h1
      constructor
      · rw [riseCount_cons, h2.1, h]
        rfl
      · simpa [List.foldl_cons] using h2.2

theorem riseCount_one (oid : Nat) :
    ∀ (ops : List StatusOp) (db : DB),
      isSucc db oid = false →
      (db.orders.find? (fun o => o.id == oid)).isSome = true →
      (paymentFor db oid).isSome = true →
      (∃ op ∈ ops, op.deliversTo oid) →
      riseCount oid db ops = 1 ∧ isSucc (ops.foldl stepStatus db) oid = true := by
  intro ops
  induction ops with
  | nil =>
      intro db _ _ _ hdel
      obtain ⟨op, hop, _⟩ := hdel
      cases hop
  | cons op rest ih =>
      intro db hns hord hpay hdel
      cases hs1 : isSucc (stepStatus db op) oid with
      | true =>
          have hz := riseCount_zero_of_succ oid rest (stepStatus db op) hs1
          constructor
          · rw [riseCount_cons, hz.1, hns, hs1]
            rfl
          · simpa [List.foldl_cons] using hz.2
      | false =>
          have hnotdel : ¬ op.deliversTo oid := by
            intro hd
            have hcontra := deliver_sets_success db op oid hd hord hpay
            rw [hs1] at hcontra
            cases hcontra
          obtain ⟨op2, hop2, hdel2⟩ := hdel
          rcases List.mem_cons.mp hop2 with hfirst | hop2r
          · exact absurd (hfirst ▸ hdel2) hnotdel
          · have ihres := ih (stepStatus db op) hs1
              (stepStatus_order_isSome db op oid hord)
              (stepStatus_payment_isSome db op oid hpay)
              ⟨op2, hop2r, hdel2⟩
            constructor
            · rw [riseCount_cons, ihres.1, hns, hs1]
              rfl
            · simpa [List.foldl_cons] using ihres.2

/-- C5.  For an existing order carrying a payment whose status is not yet
SUCCESS, any sequence of status-route calls (`PUT /orders/:id/status` or
`POST /orders/tracking`) containing a DELIVERED mark for that order
leaves the payment with status SUCCESS, and the transition from a
non-SUCCESS payment status to SUCCESS happens exactly once along the
sequence. -/
theorem delivered_payment_success_once (db : DB) (oid : Nat)
    (ops : List StatusOp)
    (hord : (db.orders.find? (fun o => o.id == oid)).isSome = true)
    (hpay : (paymentFor db oid).isSome = true)
    (hns : isSucc db oid = false)
    (hdel : ∃ op ∈ ops, op.deliversTo oid) :
    isSucc (ops.foldl stepStatus db) oid = true ∧
    riseCount oid db ops = 1 :=
  have r := riseCount_one oid ops db hns hord hpay hdel
  ⟨r.2, r.1⟩

/-- Witness for C5: a PENDING order delivered through the status route,
then touched again by the tracking route; the rise count is one. -/
theorem delivered_payment_success_once_witness :
    isSucc ([StatusOp.putStatus 1 "DELIVERED",
             StatusOp.postTracking 1 "DELIVERED" "arrived"].foldl stepStatus dbOrder) 1 = true ∧
    riseCount 1 dbOrder [StatusOp.putStatus 1 "DELIVERED",
             StatusOp.postTracking 1 "DELIVERED" "arrived"] = 1 :=
  delivered_payment_success_once dbOrder 1
    [StatusOp.putStatus 1 "DELIVERED", StatusOp.postTracking 1 "DELIVERED" "arrived"]
    (by decide) (by decide) (by decide)
    ⟨StatusOp.putStatus 1 "DELIVERED", by decide, by decide⟩

/-! ## C10: deleting a PENDING order removes it without restoring stock -/

theorem deleteOrder_deleted_inv (db : DB) (uid oid : Nat)
    (h : (deleteOrder db uid oid).2 = .deleted) :
    deleteOrder db uid oid =
      ({ db with
          orderItems := db.orderItems.filter (fun it => it.orderId != oid),
          orders := db.orders.filter (fun q => q.id != oid) }, .deleted) := by
  unfold deleteOrder at h ⊢
  split at h
  · simp at h
  · rename_i o ho
    split at h
    · simp at h
    · split at h
      · simp at h
      · dsimp only at h ⊢
        split at h
        · simp at h
        · rename_i h1 h2 h3
          rw [if_neg h1, if_neg h2, if_neg h3]

/-- C10.  A successful `DELETE /orders/:id` removes the Order row and all
its OrderItem rows while the products table — in particular every
`Product.stock` — is untouched: the route never restores stock. -/
theorem delete_order_keeps_stock (db : DB) (uid oid : Nat)
    (h : (deleteOrder db uid oid).2 = .deleted) :
    (deleteOrder db uid oid).1.products = db.products ∧
    (∀ pid, stockOf (deleteOrder db uid oid).1 pid = stockOf db pid) ∧
    (deleteOrder db uid oid).1.orders = db.orders.filter (fun q => q.id != oid) ∧
    (deleteOrder db uid oid).1.orderItems =
      db.orderItems.filter (fun it => it.orderId != oid) ∧
    (∀ o ∈ (deleteOrder db uid oid).1.orders, o.id ≠ oid) := by
  have hc := deleteOrder_deleted_inv db uid oid h
  rw [hc]
  refine ⟨rfl, fun pid => rfl, rfl, rfl, ?_⟩
  intro o ho
  have hmem := List.of_mem_filter ho
  simpa using hmem

/-- Witness for C10: the owner deletes a PENDING manual order (no
payment row); the product keeps its stock. -/
theorem delete_order_keeps_stock_witness :
    (deleteOrder dbOrderNoPay 7 1).1.products = dbOrderNoPay.products ∧
    stockOf (deleteOrder dbOrderNoPay 7 1).1 9 = stockOf dbOrderNoPay 9 ∧
    (deleteOrder dbOrderNoPay 7 1).1.orders =
      dbOrderNoPay.orders.filter (fun q => q.id != 1) :=
  have r := delete_order_keeps_stock dbOrderNoPay 7 1 (by decide)
  ⟨r.1, r.2.1 9, r.2.2.1⟩

/-! ## C9: add-to-cart merges lines, so carts never hold two rows for one
product -/

theorem ensureCart_some (db : DB) (uid : Nat) (c : Cart)
    (h : findCart db uid = some c) : ensureCart db uid = (db, c) := by
  unfold ensureCart
  rw [h]

theorem ensureCart_none (db : DB) (uid : Nat) (h : findCart db uid = none) :
    ensureCart db uid =
      ({ db with
          carts := db.carts ++ [{ id := db.nextId, userId := uid }],
          nextId := db.nextId + 1 },
       { id := db.nextId, userId := uid }) := by
  unfold ensureCart
  rw [h]

theorem bumpQty_fields (exId : Nat) (nq : Int) (x : CartItem) :
    (bumpQty exId nq x).cartId = x.cartId ∧
    (bumpQty exId nq x).productId = x.productId := by
  unfold bumpQty
  by_cases hx : (x.id == exId) = true <;> simp [hx]

theorem addToCart_merge_eq (db : DB) (uid pid : Nat) (qty : Int)
    (cart : Cart) (ex : CartItem) (prod : Product)
    (hg : ¬(pid = 0 ∨ qty ≤ 0)) (hp : findProduct db pid = some prod)
    (hc : findCart db uid = some cart)
    (hex : db.cartItems.find?
      (fun ci => ci.cartId == cart.id && ci.productId == pid) = some ex) :
    addToCart db uid pid qty =
      ({ db with
          cartItems := db.cartItems.map (bumpQty ex.id (ex.qty + qty)) },
       .ok) := by
  unfold addToCart
  rw [if_neg hg]
  simp only [hp, ensureCart_some db uid cart hc, hex]

theorem addToCart_newline_eq (db : DB) (uid pid : Nat) (qty : Int)
    (cart : Cart) (prod : Product)
    (hg : ¬(pid = 0 ∨ qty ≤ 0)) (hp : findProduct db pid = some prod)
    (hc : findCart db uid = some cart)
    (hex : db.cartItems.find?
      (fun ci => ci.cartId == cart.id && ci.productId == pid) = none) :
    addToCart db uid pid qty =
      ({ db with
          cartItems := db.cartItems ++
            [{ id := db.nextId, cartId := cart.id, productId := pid, qty := qty }],
          nextId := db.nextId + 1 }, .ok) := by
  unfold addToCart
  rw [if_neg hg]
  simp only [hp, ensureCart_some db uid cart hc, hex]

theorem addToCart_newcart_eq (db : DB) (uid pid : Nat) (qty : Int)
    (prod : Product)
    (hg : ¬(pid = 0 ∨ qty ≤ 0)) (hp : findProduct db pid = some prod)
    (hc : findCart db uid = none)
    (hnone : db.cartItems.find?
      (fun ci => ci.cartId == db.nextId && ci.productId == pid) = none) :
    addToCart db uid pid qty =
      ({ db with
          carts := db.carts ++ [{ id := db.nextId, userId := uid }],
          cartItems := db.cartItems ++
            [{ id := db.nextId + 1, cartId := db.nextId, productId := pid, qty := qty }],
          nextId := db.nextId + 1 + 1 }, .ok) := by
  unfold addToCart
  rw [if_neg hg]
  simp only [hp, ensureCart_none db uid hc, hnone]

/-- C9.  `POST /cart` preserves the one-line-per-product shape of every
cart, and when a line for the product already exists in the caller's
cart it increments that line's quantity in place: the number of CartItem
rows does not change and the existing row carries the summed quantity. -/
theorem add_to_cart_merges (db : DB) (uid pid : Nat) (qty : Int)
    (hbound : ∀ ci ∈ db.cartItems, ci.cartId < db.nextId)
    (hnd : NoDupLines db) :
    NoDupLines (addToCart db uid pid qty).1 ∧
    (∀ cart ex, findCart db uid = some cart →
       db.cartItems.find? (fun ci => ci.cartId == cart.id && ci.productId == pid) = some ex →
       pid ≠ 0 → 0 < qty → (findProduct db pid).isSome = true →
       (addToCart db uid pid qty).1.cartItems.length = db.cartItems.length ∧
       ∃ ci ∈ (addToCart db uid pid qty).1.cartItems,
         ci.id = ex.id ∧ ci.cartId = cart.id ∧ ci.productId = pid ∧
         ci.qty = ex.qty + qty) := by
  constructor
  · by_cases hg : pid = 0 ∨ qty ≤ 0
    · have heq : addToCart db uid pid qty =
          (db, .badRequest "Invalid product or quantity") := by
        unfold addToCart
        rw [if_pos hg]
      rw [heq]
      exact hnd
    · cases hp : findProduct db pid with
      | none =>
          have heq : addToCart db uid pid qty = (db, .notFound "Product not found") := by
            unfold addToCart
            rw [if_neg hg]
            simp only [hp]
          rw [heq]
          exact hnd
      | some prod =>
          cases hc : findCart db uid with
          | some c =>
              cases hex : db.cartItems.find?
                  (fun ci => ci.cartId == c.id && ci.productId == pid) with
              | some ex =>
                  rw [addToCart_merge_eq db uid pid qty c ex prod hg hp hc hex]
                  unfold NoDupLines at hnd ⊢
                  refine List.Pairwise.map _ ?_ hnd
                  intro a b hab hcc
                  rw [(bumpQty_fields ex.id (ex.qty + qty) a).1,
                    (bumpQty_fields ex.id (ex.qty + qty) b).1] at hcc
                  rw [(bumpQty_fields ex.id (ex.qty + qty) a).2,
                    (bumpQty_fields ex.id (ex.qty + qty) b).2]
                  exact hab hcc
              | none =>
                  rw [addToCart_newline_eq db uid pid qty c prod hg hp hc hex]
                  unfold NoDupLines at hnd ⊢
                  rw [List.pairwise_append]
                  refine ⟨hnd, List.pairwise_singleton _ _, ?_⟩
                  intro a ha b hb
                  rw [List.mem_singleton] at hb
                  subst hb
                  intro hcid hpe
                  have hnotex := List.find?_eq_none.mp hex a ha
                  apply hnotex
                  rw [Bool.and_eq_true]
                  exact ⟨by simpa using hcid, by simpa using hpe⟩
          | none =>
              have hnone : db.cartItems.find?
                  (fun ci => ci.cartId == db.nextId && ci.productId == pid) = none := by
                rw [List.find?_eq_none]
                intro ci hci hcontra
                rw [Bool.and_eq_true] at hcontra
                have hcic : ci.cartId = db.nextId := by simpa using hcontra.1
                exact absurd hcic (Nat.ne_of_lt (hbound ci hci))
              rw [addToCart_newcart_eq db uid pid qty prod hg hp hc hnone]
              unfold NoDupLines at hnd ⊢
              rw [List.pairwise_append]
              refine ⟨hnd, List.pairwise_singleton _ _, ?_⟩
              intro a ha b hb
              rw [List.mem_singleton] at hb
              subst hb
              intro hcid
              have hlt := hbound a ha
              have hcid2 : a.cartId = db.nextId := by simpa using hcid
              exact absurd hcid2 (Nat.ne_of_lt hlt)
  · intro cart ex hc hex hpid0 hqty hp
    have hg : ¬(pid = 0 ∨ qty ≤ 0) := by
      push_neg
      exact ⟨hpid0, hqty⟩
    obtain ⟨prod, hprod⟩ := Option.isSome_iff_exists.mp hp
    rw [addToCart_merge_eq db uid pid qty cart ex prod hg hprod hc hex]
    constructor
    · exact List.length_map _ _
    · have hmem : ex ∈ db.cartItems := List.mem_of_find?_eq_some hex
      have hprops := List.find?_some hex
      rw [Bool.and_eq_true] at hprops
      refine ⟨bumpQty ex.id (ex.qty + qty) ex, ?_, ?_, ?_, ?_, ?_⟩
      · exact List.mem_map.mpr ⟨ex, hmem, rfl⟩
      · simp [bumpQty]
      · rw [(bumpQty_fields ex.id (ex.qty + qty) ex).1]
        simpa using hprops.1
      · rw [(bumpQty_fields ex.id (ex.qty + qty) ex).2]
        simpa using hprops.2
      · simp [bumpQty]

/-- Witness for C9: adding two more units of product 1, already in the
cart with quantity 2, keeps one line and sets its quantity to 4. -/
theorem add_to_cart_merges_witness :
    NoDupLines (addToCart dbOK 7 1 2).1 ∧
    (addToCart dbOK 7 1 2).1.cartItems.length = dbOK.cartItems.length ∧
    ∃ ci ∈ (addToCart dbOK 7 1 2).1.cartItems,
      ci.id = 3 ∧ ci.cartId = 2 ∧ ci.productId = 1 ∧ ci.qty = 4 :=
  have r := add_to_cart_merges dbOK 7 1 2 (by decide) (by decide)
  have m := r.2 { id := 2, userId := 7 } { id := 3, cartId := 2, productId := 1, qty := 2 }
    (by decide) (by decide) (by decide) (by decide) (by decide)
  ⟨r.1, m.1, m.2⟩

/-! ## C6: side-effect failures and the checkout response -/

/-- Counterexample to C6 as stated.  In checkout variant 3 (order.ts
lines 1448-1625) the seller e-mails are awaited with no try/catch: with
the transaction committed (one new Order and one new Payment below) a
mail failure escapes the handler and the caller never receives the
success response. -/
theorem checkoutV3_mail_failure_changes_outcome :
    (checkoutV3 dbOK rqA true { notifOk := true, mailOk := false, waOk := true }).2 =
      .crashed ∧
    (checkoutV3 dbOK rqA true
      { notifOk := true, mailOk := false, waOk := true }).1.orders.length =
      dbOK.orders.length + 1 ∧
    (checkoutV3 dbOK rqA true
      { notifOk := true, mailOk := false, waOk := true }).1.payments.length =
      dbOK.payments.length + 1 := by
  decide

theorem checkout_commit_components (x : DB) (rq : CheckoutReq) (oid : Nat)
    (t : Int) (lines : List Line) (e : Effects) :
    (if e.notifOk then addCheckoutNotifs x rq oid t lines else x).orders = x.orders ∧
    (if e.notifOk then addCheckoutNotifs x rq oid t lines else x).payments = x.payments ∧
    (if e.notifOk then addCheckoutNotifs x rq oid t lines else x).products = x.products ∧
    (if e.notifOk then addCheckoutNotifs x rq oid t lines else x).cartItems = x.cartItems ∧
    (if e.notifOk then addCheckoutNotifs x rq oid t lines else x).carts = x.carts := by
  have hframe := addCheckoutNotifs_frame x rq oid t lines
  cases he : e.notifOk with
  | true =>
      rw [if_pos rfl]
      exact ⟨hframe.2.2.2.1, hframe.2.2.2.2.2, hframe.1, hframe.2.2.1, hframe.2.1⟩
  | false =>
      rw [if_neg (by simp)]
      exact ⟨rfl, rfl, rfl, rfl, rfl⟩

/-- C6 as amended.  For checkout variant 1 — the detached, try/caught
side-effect block — the HTTP response and the committed Order, Payment,
stock and cart state are identical whatever combination of side-effect
channels fails. -/
theorem checkout_outcome_independent_of_effects (db : DB) (rq : CheckoutReq)
    (e1 e2 : Effects) :
    (checkout db rq e1).2 = (checkout db rq e2).2 ∧
    (checkout db rq e1).1.orders = (checkout db rq e2).1.orders ∧
    (checkout db rq e1).1.payments = (checkout db rq e2).1.payments ∧
    (checkout db rq e1).1.products = (checkout db rq e2).1.products ∧
    (checkout db rq e1).1.cartItems = (checkout db rq e2).1.cartItems ∧
    (checkout db rq e1).1.carts = (checkout db rq e2).1.carts := by
  unfold checkout
  by_cases hf : rq.method = "" ∨ rq.address = "" ∨ rq.city = "" ∨ rq.phone = ""
  · simp [if_pos hf]
  · simp only [if_neg hf]
    cases hc : findCart db rq.userId with
    | none => exact ⟨rfl, rfl, rfl, rfl, rfl, rfl⟩
    | some cart =>
        by_cases he : (cartLines db cart.id).isEmpty
        · simp only [he]
          exact ⟨rfl, rfl, rfl, rfl, rfl, rfl⟩
        · rw [Bool.not_eq_true] at he
          simp only [he]
          cases hr : resolveLines db (cartLines db cart.id) with
          | none => exact ⟨rfl, rfl, rfl, rfl, rfl, rfl⟩
          | some lines =>
              dsimp only
              cases hfind : lines.find? (fun l => decide (l.2.stock < l.1.qty)) with
              | some l => exact ⟨rfl, rfl, rfl, rfl, rfl, rfl⟩
              | none =>
                  have h1 := checkout_commit_components (applyTxn db rq cart lines)
                    rq db.nextId (checkoutTotal lines) lines e1
                  have h2 := checkout_commit_components (applyTxn db rq cart lines)
                    rq db.nextId (checkoutTotal lines) lines e2
                  exact ⟨rfl, h1.1.trans h2.1.symm, h1.2.1.trans h2.2.1.symm,
                    h1.2.2.1.trans h2.2.2.1.symm, h1.2.2.2.1.trans h2.2.2.2.1.symm,
                    h1.2.2.2.2.trans h2.2.2.2.2.symm⟩

/-! ## C7: notification addressing -/

/-- Counterexample to C7 as stated.  The admin notification created
during checkout (order.ts lines 256-261 pass `role: "ADMIN"`) is stored
by `createNotification` with no recipient at all — userId, sellerId and
role are all NULL — because the helper forwards no role field. -/
theorem checkout_admin_notification_unaddressed :
    ∃ n ∈ (checkout dbOK rqA effsAll).1.notifications,
      n.message = "New Order #4 placed by Ali. Total: Rs 100" ∧
      n.userId = none ∧ n.sellerId = none ∧ n.role = none := by
  decide

/-- C7 as amended.  Every notification row created by the checkout
side-effect block has `role` NULL and is one of exactly three shapes:
the buyer row carrying exactly the buyer's userId and no sellerId, a
seller row carrying exactly a sellerId and no userId, or the admin row
carrying no recipient at all, its `role: "ADMIN"` argument being dropped
by the helper; and when the seller map construction succeeds, the buyer
row and the recipientless admin row are indeed created. -/
theorem checkout_notifications_recipients (db : DB) (rq : CheckoutReq)
    (oid : Nat) (t : Int) (lines : List Line) :
    (∀ n ∈ (addCheckoutNotifs db rq oid t lines).notifications,
       n ∈ db.notifications ∨
       (n.role = none ∧ n.userId = some rq.userId ∧ n.sellerId = none) ∨
       (n.role = none ∧ n.userId = none ∧ ∃ s, n.sellerId = some s) ∨
       (n.role = none ∧ n.userId = none ∧ n.sellerId = none ∧
        n = notifRowOf (adminNotifInput oid t rq.userName))) ∧
    (∀ sids, linesSellers lines = some sids →
       notifRowOf (userNotifInput rq.userId oid) ∈
         (addCheckoutNotifs db rq oid t lines).notifications ∧
       notifRowOf (adminNotifInput oid t rq.userName) ∈
         (addCheckoutNotifs db rq oid t lines).notifications) := by
  constructor
  · intro n hn
    unfold addCheckoutNotifs at hn
    cases h : linesSellers lines with
    | none =>
        rw [h] at hn
        exact Or.inl hn
    | some sids =>
        rw [h] at hn
        simp only [addSellerNotifs_eq, createNotification] at hn
        simp only [List.mem_append, List.mem_singleton, List.mem_map] at hn
        rcases hn with ((hdb | hu) | ⟨s, hs, hrow⟩) | hadmin
        · exact Or.inl hdb
        · subst hu
          exact Or.inr (Or.inl ⟨rfl, rfl, rfl⟩)
        · subst hrow
          exact Or.inr (Or.inr (Or.inl ⟨rfl, rfl, s, rfl⟩))
        · subst hadmin
          exact Or.inr (Or.inr (Or.inr ⟨rfl, rfl, rfl, rfl⟩))
  · intro sids hs
    unfold addCheckoutNotifs
    rw [hs]
    simp only [addSellerNotifs_eq, createNotification]
    constructor
    · simp [List.mem_append]
    · simp [List.mem_append]

/-- Witness for the amended C7 at a concrete store and line list: the
buyer row classifies as carrying exactly the buyer recipient, and the
admin row is created. -/
theorem checkout_notifications_recipients_witness :
    (notifRowOf (userNotifInput 7 4) ∈ dbOK.notifications ∨
     ((notifRowOf (userNotifInput 7 4)).role = none ∧
      (notifRowOf (userNotifInput 7 4)).userId = some 7 ∧
      (notifRowOf (userNotifInput 7 4)).sellerId = none) ∨
     ((notifRowOf (userNotifInput 7 4)).role = none ∧
      (notifRowOf (userNotifInput 7 4)).userId = none ∧
      ∃ s, (notifRowOf (userNotifInput 7 4)).sellerId = some s) ∨
     ((notifRowOf (userNotifInput 7 4)).role = none ∧
      (notifRowOf (userNotifInput 7 4)).userId = none ∧
      (notifRowOf (userNotifInput 7 4)).sellerId = none ∧
      notifRowOf (userNotifInput 7 4) = notifRowOf (adminNotifInput 4 100 "Ali"))) ∧
    notifRowOf (adminNotifInput 4 100 "Ali") ∈
      (addCheckoutNotifs dbOK rqA 4 100 [lineA]).notifications :=
  have r := checkout_notifications_recipients dbOK rqA 4 100 [lineA]
  ⟨r.1 (notifRowOf (userNotifInput 7 4)) (by decide),
   (r.2 [10] (by decide)).2⟩

/-! ## C8: products CSV import rows -/

/-- Counterexample to C8 as stated.  The row carries id 5 of an existing
product owned by seller 2; the caller is seller 3 and no product of
seller 3 matches the title — yet the import neither updates nor creates
anything: the permission-failing branch skips the row outright instead
of falling through to the duplicate check or a create. -/
theorem import_skips_foreign_id_row :
    importRow dbImport .SELLER 3 rowSkip = (dbImport, 0, 0) ∧
    rowSkip.id = some 5 ∧
    (dbImport.products.find? (fun p => p.id == 5)).isSome = true ∧
    findDup dbImport rowSkip.title 3 = none := by
  decide

/-- C8 as amended.  Category resolution follows the claim (absent cell
keeps id 1; case-insensitive match reused; otherwise created), and the
product branch follows the claim except that a row whose explicit id
matches an existing product of another seller is skipped by a non-admin
caller: no title-based update and no create happen for it. -/
theorem import_row_behavior (db : DB) (role : Role) (sid : Nat) (row : CsvRow)
    (db1 : DB) (catId : Nat)
    (hrc : resolveCategory db role sid row = (db1, catId)) :
    (row.category = "" → db1 = db ∧ catId = 1) ∧
    (∀ c, row.category ≠ "" →
       db.categories.find?
         (fun c2 => lowerStr c2.name == lowerStr (trimStr row.category)) = some c →
       db1 = db ∧ catId = c.id) ∧
    (row.category ≠ "" →
       db.categories.find?
         (fun c2 => lowerStr c2.name == lowerStr (trimStr row.category)) = none →
       db1.categories = db.categories ++
         [{ id := db.nextId, name := trimStr row.category, image := "",
            sellerId := if role = .ADMIN then none else some sid }] ∧
       catId = db.nextId) ∧
    (∀ i p, row.id = some i → db1.products.find? (fun q => q.id == i) = some p →
       ((role = .ADMIN ∨ p.sellerId = some sid) →
          importRow db role sid row =
            ({ db1 with
                products := updateProductRow db1.products i (productDataOf row catId) },
             0, 1)) ∧
       (¬(role = .ADMIN ∨ p.sellerId = some sid) →
          importRow db role sid row = (db1, 0, 0))) ∧
    ((row.id = none ∨
        ∃ i, row.id = some i ∧ db1.products.find? (fun q => q.id == i) = none) →
       (∀ dup, findDup db1 row.title (row.sellerIdCol.getD sid) = some dup →
          importRow db role sid row =
            ({ db1 with
                products := updateProductRow db1.products dup.id (productDataOf row catId) },
             0, 1)) ∧
       (findDup db1 row.title (row.sellerIdCol.getD sid) = none →
          importRow db role sid row =
            (createProductRow db1 (productDataOf row catId) (row.sellerIdCol.getD sid),
             1, 0))) := by
  have hti : (productDataOf row catId).title = row.title := rfl
  refine ⟨?_, ?_, ?_, ?_, ?_⟩
  · intro hcat
    unfold resolveCategory at hrc
    rw [if_pos hcat] at hrc
    injection hrc with h1 h2
    exact ⟨h1.symm, h2.symm⟩
  · intro c hne hfind
    unfold resolveCategory at hrc
    rw [if_neg hne] at hrc
    simp only [hfind] at hrc
    injection hrc with h1 h2
    exact ⟨h1.symm, h2.symm⟩
  · intro hne hfind
    unfold resolveCategory at hrc
    rw [if_neg hne] at hrc
    simp only [hfind] at hrc
    injection hrc with h1 h2
    rw [← h1, ← h2]
    exact ⟨rfl, rfl⟩
  · intro i p hid hfind
    constructor
    · intro hauth
      unfold importRow
      simp only [hrc, hid, hfind]
      rw [if_pos hauth]
    · intro hnauth
      unfold importRow
      simp only [hrc, hid, hfind]
      rw [if_neg hnauth]
  · intro hnoid
    constructor
    · intro dup hdup
      rcases hnoid with hnone | ⟨i, hid, hfindnone⟩
      · unfold importRow
        simp only [hrc, hnone, hti, hdup]
      · unfold importRow
        simp only [hrc, hid, hfindnone, hti, hdup]
    · intro hnodup
      rcases hnoid with hnone | ⟨i, hid, hfindnone⟩
      · unfold importRow
        simp only [hrc, hnone, hti, hnodup]
      · unfold importRow
        simp only [hrc, hid, hfindnone, hti, hnodup]

/-- Witness for the amended C8: a row with no id, a fresh category and a
fresh title creates both the category and the product. -/
theorem import_row_behavior_witness :
    (resolveCategory dbImport .SELLER 3 rowNew).1.categories =
      dbImport.categories ++
        [{ id := 6, name := "Pulses", image := "", sellerId := some 3 }] ∧
    importRow dbImport .SELLER 3 rowNew =
      (createProductRow (resolveCategory dbImport .SELLER 3 rowNew).1
        (productDataOf rowNew (resolveCategory dbImport .SELLER 3 rowNew).2) 3,
       1, 0) :=
  have r := import_row_behavior dbImport .SELLER 3 rowNew
    (resolveCategory dbImport .SELLER 3 rowNew).1
    (resolveCategory dbImport .SELLER 3 rowNew).2 rfl
  have hcat := (r.2.2.1 (by decide) (by decide)).1
  have hprod := (r.2.2.2.2 (Or.inl (by decide))).2 (by decide)
  ⟨hcat, hprod⟩
